import Mathlib

/-!
Verification of the query-execution orchestrator (`src/routines/executeQuery.js`).

The orchestrator is embedded as a pure function.  Effects that matter to the
specification — which interceptor hooks fire and in which order, whether the
execution primitive is invoked and with which arguments, and when the notice
listener is attached and detached — are reified as an ordered event trace.
The connection's shared mutable state (`connection.connection.slonik.terminated`,
`connection.native`) is threaded explicitly.  External collaborators that the
module imports but that are not part of the core (`normaliseQueryValues`,
`createQueryId`, the injected `executionRoutine`) are parameters of the model.
-/

namespace Slonik

/-- A raw driver error as delivered by the execution primitive:
`{code: string, message: string, constraint?: string}`. -/
structure DriverError where
  code : String
  message : String
  constraint : Option String
deriving DecidableEq, Repr

/-- Stand-in for `PrimitiveValueExpressionType` parameter values. -/
abbrev Value := Int

/-- A server notice collected by the notice listener. -/
abbrev Notice := String

/-- Field (column) metadata attached to a result. -/
abbrev Field := String

/-- A result row, transformed by `transformRow` hooks. -/
abbrev Row := List Int

/-- `{ sql, values }` — both the immutable `originalQuery` and the working
copy `actualQuery` have this shape. -/
structure Query where
  sql : String
  values : List Value
deriving DecidableEq, Repr

/-- Driver-shaped result: `rows` is absent for streaming execution;
`notices` is attached by the orchestrator after a successful execution. -/
structure QueryResult where
  rows : Option (List Row)
  fields : List Field
  notices : List Notice
deriving DecidableEq, Repr

/-- The semantic error taxonomy raised by the orchestrator.  `unclassifiedError`
is the passthrough rethrow of a driver error matching no classification rule;
`interceptorRaisedError` is an error thrown by a `queryExecutionError` hook
itself, which propagates in place of the classified error. -/
inductive ExecError where
  | invalidInputError (message : String)
  | backendTerminatedError (cause : DriverError)
  | statementTimeoutError (cause : DriverError)
  | statementCancelledError (cause : DriverError)
  | notNullIntegrityConstraintViolationError (cause : DriverError) (constraintName : Option String)
  | foreignKeyIntegrityConstraintViolationError (cause : DriverError) (constraintName : Option String)
  | uniqueIntegrityConstraintViolationError (cause : DriverError) (constraintName : Option String)
  | checkIntegrityConstraintViolationError (cause : DriverError) (constraintName : Option String)
  | unclassifiedError (cause : DriverError)
  | interceptorRaisedError (message : String)
deriving DecidableEq, Repr

/-- The per-call query context (`executionContext`), restricted to the fields
the claims quantify over.  `originalQuery` is the immutable input copy. -/
structure QueryContext where
  connectionId : Nat
  queryId : Nat
  originalQuery : Query
deriving DecidableEq, Repr

/-- An interceptor implements an arbitrary subset of the named hooks; an absent
hook (`none`) is not invoked.  `beforeTransformQuery`, `afterQueryExecution`
and `beforeQueryResult` are side-effect-only in the source (their return value
is ignored), so the model records only their presence.
`beforeQueryExecution` may return a result (`some`) to short-circuit;
`queryExecutionError` may itself throw (`Except.error`). -/
structure Interceptor where
  beforeTransformQuery : Option Unit := none
  transformQuery : Option (QueryContext → Query → Query) := none
  beforeQueryExecution : Option (QueryContext → Query → Option QueryResult) := none
  queryExecutionError : Option (QueryContext → Query → ExecError → Except String Unit) := none
  afterQueryExecution : Option Unit := none
  transformRow : Option (QueryContext → Query → Row → List Field → Row) := none
  beforeQueryResult : Option Unit := none

/-- The connection state shared across calls: `terminated` models
`connection.connection.slonik.terminated` (an error object once set),
`native` models `connection.native`, `connectionId` models
`connection.connection.slonik.connectionId`. -/
structure ConnectionState where
  terminated : Option DriverError
  native : Bool
  connectionId : Nat
deriving DecidableEq, Repr

/-- `clientConfiguration`, restricted to the fields the orchestrator reads. -/
structure ClientConfiguration where
  captureStackTrace : Bool
  interceptors : List Interceptor

/-- Observable events of one orchestrator call, in order of occurrence.
Hook events carry the position of the interceptor in the registration list. -/
inductive Event where
  | beforeTransformQueryHook (index : Nat)
  | transformQueryHook (index : Nat)
  | beforeQueryExecutionHook (index : Nat)
  | noticeListenerOn
  | executionRoutineInvoked (sql : String) (values : List Value) (query : Query)
  | noticeListenerOff
  | queryExecutionErrorHook (index : Nat)
  | afterQueryExecutionHook (index : Nat)
  | transformRowHook (index : Nat)
  | beforeQueryResultHook (index : Nat)
deriving DecidableEq, Repr

/-- Events emitted before the notice listener is registered. -/
def isPreExecutionEvent : Event → Bool
  | .beforeTransformQueryHook _ => true
  | .transformQueryHook _ => true
  | .beforeQueryExecutionHook _ => true
  | _ => false

/-- Events emitted after the notice listener has been removed. -/
def isPostExecutionEvent : Event → Bool
  | .queryExecutionErrorHook _ => true
  | .afterQueryExecutionHook _ => true
  | .transformRowHook _ => true
  | .beforeQueryResultHook _ => true
  | _ => false

/-- Substring test on character lists: does `hay` start with `needle`? -/
def charsStartWith : List Char → List Char → Bool
  | [], _ => true
  | _ :: _, [] => false
  | c :: cs, d :: ds => c = d && charsStartWith cs ds

/-- Substring test on character lists: does `hay` contain `needle` anywhere? -/
def charsContain (needle : List Char) : List Char → Bool
  | [] => charsStartWith needle []
  | c :: cs => charsStartWith needle (c :: cs) || charsContain needle cs

/-- `haystack.includes(needle)` of JavaScript strings. -/
def stringIncludes (haystack needle : String) : Bool :=
  charsContain needle.toList haystack.toList

/-- `s.trim()` of JavaScript strings: removes leading and trailing whitespace.
Defined structurally over the character list. -/
def jsTrim (s : String) : String :=
  ⟨((s.toList.dropWhile Char.isWhitespace).reverse.dropWhile Char.isWhitespace).reverse⟩

/-- The `catch` block of lines 153–190: classifies a raw driver error and, on a
backend-termination error, records it in the connection's shared termination
flag.  Returns the updated connection state and the error to be rethrown. -/
def handleExecutionError (connection : ConnectionState) (error : DriverError) :
    ConnectionState × ExecError :=
  if error.code = "57P01" ∨ error.message = "Connection terminated" then
    ({ connection with terminated := some error }, .backendTerminatedError error)
  else if error.code = "57014" ∧ stringIncludes error.message "canceling statement due to statement timeout" = true then
    (connection, .statementTimeoutError error)
  else if error.code = "57014" then
    (connection, .statementCancelledError error)
  else if error.code = "23502" then
    (connection, .notNullIntegrityConstraintViolationError error error.constraint)
  else if error.code = "23503" then
    (connection, .foreignKeyIntegrityConstraintViolationError error error.constraint)
  else if error.code = "23505" then
    (connection, .uniqueIntegrityConstraintViolationError error error.constraint)
  else if error.code = "23514" then
    (connection, .checkIntegrityConstraintViolationError error error.constraint)
  else
    (connection, .unclassifiedError error)

/-- The `beforeTransformQuery` loop (lines 110–114): the hook is side-effect
only, so only presence events are recorded.  The counter is the interceptor's
position in the registration list. -/
def beforeTransformQueryEvents : Nat → List Interceptor → List Event
  | _, [] => []
  | i, interceptor :: rest =>
    match interceptor.beforeTransformQuery with
    | some _ => .beforeTransformQueryHook i :: beforeTransformQueryEvents (i + 1) rest
    | none => beforeTransformQueryEvents (i + 1) rest

/-- The `transformQuery` loop (lines 116–120): each present hook replaces the
working copy for the next hook.  Returns the events and the final query. -/
def transformQuerySteps (ctx : QueryContext) : Nat → List Interceptor → Query → List Event × Query
  | _, [], q => ([], q)
  | i, interceptor :: rest, q =>
    match interceptor.transformQuery with
    | some f =>
      let step := transformQuerySteps ctx (i + 1) rest (f ctx q)
      (.transformQueryHook i :: step.1, step.2)
    | none => transformQuerySteps ctx (i + 1) rest q

/-- The `beforeQueryExecution` loop (lines 124–134): the first hook returning a
non-empty result short-circuits the loop. -/
def beforeQueryExecutionSteps (ctx : QueryContext) :
    Nat → List Interceptor → Query → List Event × Option QueryResult
  | _, [], _ => ([], none)
  | i, interceptor :: rest, q =>
    match interceptor.beforeQueryExecution with
    | some f =>
      match f ctx q with
      | some result => ([.beforeQueryExecutionHook i], some result)
      | none =>
        let step := beforeQueryExecutionSteps ctx (i + 1) rest q
        (.beforeQueryExecutionHook i :: step.1, step.2)
    | none => beforeQueryExecutionSteps ctx (i + 1) rest q

/-- The `queryExecutionError` loop (lines 195–199): hooks are awaited in
registration order; a hook that throws aborts the loop and its error (`some m`)
propagates in place of the classified error. -/
def queryExecutionErrorSteps (ctx : QueryContext) (q : Query) (err : ExecError) :
    Nat → List Interceptor → List Event × Option String
  | _, [] => ([], none)
  | i, interceptor :: rest =>
    match interceptor.queryExecutionError with
    | some f =>
      match f ctx q err with
      | .error m => ([.queryExecutionErrorHook i], some m)
      | .ok _ =>
        let step := queryExecutionErrorSteps ctx q err (i + 1) rest
        (.queryExecutionErrorHook i :: step.1, step.2)
    | none => queryExecutionErrorSteps ctx q err (i + 1) rest

/-- The `afterQueryExecution` loop (lines 207–211): side-effect only. -/
def afterQueryExecutionEvents : Nat → List Interceptor → List Event
  | _, [] => []
  | i, interceptor :: rest =>
    match interceptor.afterQueryExecution with
    | some _ => .afterQueryExecutionHook i :: afterQueryExecutionEvents (i + 1) rest
    | none => afterQueryExecutionEvents (i + 1) rest

/-- The `transformRow` loop (lines 215–230): each present hook maps every row
of the current result; the result is replaced with the new row sequence. -/
def transformRowSteps (ctx : QueryContext) (q : Query) :
    Nat → List Interceptor → QueryResult → List Event × QueryResult
  | _, [], result => ([], result)
  | i, interceptor :: rest, result =>
    match interceptor.transformRow with
    | some f =>
      let rows := result.rows.map (fun rs => rs.map (fun row => f ctx q row result.fields))
      let step := transformRowSteps ctx q (i + 1) rest { result with rows := rows }
      (.transformRowHook i :: step.1, step.2)
    | none => transformRowSteps ctx q (i + 1) rest result

/-- The `beforeQueryResult` loop (lines 233–237): side-effect only. -/
def beforeQueryResultEvents : Nat → List Interceptor → List Event
  | _, [] => []
  | i, interceptor :: rest =>
    match interceptor.beforeQueryResult with
    | some _ => .beforeQueryResultHook i :: beforeQueryResultEvents (i + 1) rest
    | none => beforeQueryResultEvents (i + 1) rest

/-- Builds `executionContext` (lines 83–108): `queryId` reuses
`inheritedQueryId` when supplied, else the freshly minted identifier
(`createQueryId` is external, so the fresh identifier is a parameter). -/
def contextOf (connection : ConnectionState) (rawSql : String) (values : List Value)
    (inheritedQueryId : Option Nat) (freshQueryId : Nat) : QueryContext :=
  { connectionId := connection.connectionId,
    queryId := inheritedQueryId.getD freshQueryId,
    originalQuery := { sql := rawSql, values := values } }

/-- The outcome of one orchestrator call: the ordered event trace, the returned
result or raised error, and the connection state after the call. -/
structure CallResult where
  events : List Event
  result : Except ExecError QueryResult
  connectionAfter : ConnectionState

/-- Lines 136–237: the part of the orchestrator from notice-listener
registration onward (reached only when no `beforeQueryExecution` hook
short-circuited).  `noticesDuring` is the sequence of notices the connection
emits while the listener is attached. -/
def runExecution (connection : ConnectionState) (interceptors : List Interceptor)
    (executionContext : QueryContext) (actualQuery : Query)
    (normaliseQueryValues : List Value → Bool → List Value)
    (executionRoutine : String → List Value → Query → Except DriverError QueryResult)
    (noticesDuring : List Notice) : CallResult :=
  let sqlArg := actualQuery.sql
  let valuesArg := normaliseQueryValues actualQuery.values connection.native
  let execEvents := [Event.noticeListenerOn,
    Event.executionRoutineInvoked sqlArg valuesArg actualQuery, Event.noticeListenerOff]
  match executionRoutine sqlArg valuesArg actualQuery with
  | .error error =>
    let handled := handleExecutionError connection error
    let step := queryExecutionErrorSteps executionContext actualQuery handled.2 0 interceptors
    let finalError :=
      match step.2 with
      | some m => ExecError.interceptorRaisedError m
      | none => handled.2
    ⟨execEvents ++ step.1, .error finalError, handled.1⟩
  | .ok rawResult =>
    let resultWithNotices := { rawResult with notices := noticesDuring }
    let afterEvents := afterQueryExecutionEvents 0 interceptors
    let rowStep :=
      match resultWithNotices.rows with
      | some _ => transformRowSteps executionContext actualQuery 0 interceptors resultWithNotices
      | none => ([], resultWithNotices)
    let resultEvents := beforeQueryResultEvents 0 interceptors
    ⟨execEvents ++ afterEvents ++ rowStep.1 ++ resultEvents, .ok rowStep.2, connection⟩

/-- The orchestrator (`executeQuery.js` default export).  Parameters beyond the
source signature stand for external collaborators: `freshQueryId` for
`createQueryId()`, `normaliseQueryValues` for the utility of the same name,
`noticesDuring` for the notices the connection emits during execution. -/
def executeQuery (connection : ConnectionState) (clientConfiguration : ClientConfiguration)
    (rawSql : String) (values : List Value) (inheritedQueryId : Option Nat) (freshQueryId : Nat)
    (normaliseQueryValues : List Value → Bool → List Value)
    (executionRoutine : String → List Value → Query → Except DriverError QueryResult)
    (noticesDuring : List Notice) : CallResult :=
  match connection.terminated with
  | some cause => ⟨[], .error (.backendTerminatedError cause), connection⟩
  | none =>
    if jsTrim rawSql = "" then
      ⟨[], .error (.invalidInputError "Unexpected SQL input. Query cannot be empty."), connection⟩
    else if jsTrim rawSql = "$1" then
      ⟨[], .error (.invalidInputError "Unexpected SQL input. Query cannot be empty. Found only value binding."),
        connection⟩
    else
      let originalQuery : Query := { sql := rawSql, values := values }
      let executionContext := contextOf connection rawSql values inheritedQueryId freshQueryId
      let interceptors := clientConfiguration.interceptors
      let preTransformEvents := beforeTransformQueryEvents 0 interceptors
      let transformStep := transformQuerySteps executionContext 0 interceptors originalQuery
      let actualQuery := transformStep.2
      let shortCircuitStep := beforeQueryExecutionSteps executionContext 0 interceptors actualQuery
      match shortCircuitStep.2 with
      | some result =>
        ⟨preTransformEvents ++ transformStep.1 ++ shortCircuitStep.1, .ok result, connection⟩
      | none =>
        let tail := runExecution connection interceptors executionContext actualQuery
          normaliseQueryValues executionRoutine noticesDuring
        ⟨preTransformEvents ++ transformStep.1 ++ shortCircuitStep.1 ++ tail.events,
          tail.result, tail.connectionAfter⟩

/-- The cumulative effect of the `transformQuery` loop: a left fold of the
present hooks over the working query. -/
def applyTransformQueryHooks (ctx : QueryContext) (interceptors : List Interceptor)
    (q : Query) : Query :=
  interceptors.foldl (fun acc interceptor =>
    match interceptor.transformQuery with
    | some f => f ctx acc
    | none => acc) q

/-- The cumulative effect of the `transformRow` loop on one row: a left fold of
the present hooks over the row. -/
def applyTransformRowHooks (ctx : QueryContext) (q : Query) (fields : List Field)
    (interceptors : List Interceptor) (row : Row) : Row :=
  interceptors.foldl (fun acc interceptor =>
    match interceptor.transformRow with
    | some f => f ctx q acc fields
    | none => acc) row

/-- Events of the `beforeQueryExecution` loop when no hook short-circuits:
one event per interceptor implementing the hook, in registration order. -/
def beforeQueryExecutionHookEvents : Nat → List Interceptor → List Event
  | _, [] => []
  | i, interceptor :: rest =>
    match interceptor.beforeQueryExecution with
    | some _ => .beforeQueryExecutionHook i :: beforeQueryExecutionHookEvents (i + 1) rest
    | none => beforeQueryExecutionHookEvents (i + 1) rest

/-- Events of the `queryExecutionError` loop when no hook throws: one event per
interceptor implementing the hook, in registration order. -/
def queryExecutionErrorHookEvents : Nat → List Interceptor → List Event
  | _, [] => []
  | i, interceptor :: rest =>
    match interceptor.queryExecutionError with
    | some _ => .queryExecutionErrorHook i :: queryExecutionErrorHookEvents (i + 1) rest
    | none => queryExecutionErrorHookEvents (i + 1) rest

/-- The classification table exactly as claim C1 words it: an ordered
first-match-wins table starting at the statement-cancellation rules, with
unmatched errors re-raised unchanged.  Written from the claim, to be compared
with `handleExecutionError`, which is written from the source. -/
def claimedClassificationTable (error : DriverError) : ExecError :=
  if error.code = "57014" ∧ stringIncludes error.message "canceling statement due to statement timeout" = true then
    .statementTimeoutError error
  else if error.code = "57014" then
    .statementCancelledError error
  else if error.code = "23502" then
    .notNullIntegrityConstraintViolationError error error.constraint
  else if error.code = "23503" then
    .foreignKeyIntegrityConstraintViolationError error error.constraint
  else if error.code = "23505" then
    .uniqueIntegrityConstraintViolationError error error.constraint
  else if error.code = "23514" then
    .checkIntegrityConstraintViolationError error error.constraint
  else
    .unclassifiedError error

/-- Concrete fixtures used by witnesses and counterexamples. -/
def sampleRoutineResult : QueryResult := ⟨some [[1], [2]], ["a"], []⟩

/-- An execution routine that always succeeds with `sampleRoutineResult`. -/
def okRoutine : String → List Value → Query → Except DriverError QueryResult :=
  fun _ _ _ => .ok sampleRoutineResult

/-- A value normalisation that leaves values unchanged. -/
def idNormalise : List Value → Bool → List Value := fun vs _ => vs

/-- A backend-termination driver error. -/
def terminationCause : DriverError :=
  ⟨"57P01", "terminating connection due to administrator command", none⟩

/-- A driver error whose code is the cancellation code but whose message is the
transport-closed message. -/
def cancelledTerminationError : DriverError := ⟨"57014", "Connection terminated", none⟩

/-- A unique-constraint-violation driver error carrying a constraint name. -/
def uniqueViolationCause : DriverError :=
  ⟨"23505", "duplicate key value violates unique constraint", some "users_email_key"⟩

/-- An interceptor with presence-only hooks and a benign error hook. -/
def sampleInterceptor : Interceptor :=
  { beforeTransformQuery := some (), afterQueryExecution := some (),
    beforeQueryResult := some (), queryExecutionError := some (fun _ _ _ => .ok ()) }

/-- A configuration registering `sampleInterceptor`. -/
def sampleConfig : ClientConfiguration := ⟨false, [sampleInterceptor]⟩

/-- A result injected by a short-circuiting `beforeQueryExecution` hook. -/
def shortCircuitResult : QueryResult := ⟨some [[42]], ["cached"], []⟩

/-- An interceptor whose `beforeQueryExecution` hook declines to answer. -/
def passInterceptor : Interceptor := { beforeQueryExecution := some (fun _ _ => none) }

/-- An interceptor whose `beforeQueryExecution` hook answers with
`shortCircuitResult`, and which also registers post-execution hooks. -/
def cacheInterceptor : Interceptor :=
  { beforeQueryExecution := some (fun _ _ => some shortCircuitResult),
    afterQueryExecution := some (), transformRow := some (fun _ _ row _ => row),
    beforeQueryResult := some () }

/-- A configuration registering `passInterceptor` then `cacheInterceptor`. -/
def shortCircuitConfig : ClientConfiguration := ⟨false, [passInterceptor, cacheInterceptor]⟩

/-- An interceptor whose `transformQuery` hook appends " A" to the SQL. -/
def appendAInterceptor : Interceptor :=
  { transformQuery := some (fun _ q => ⟨q.sql ++ " A", q.values⟩) }

/-- An interceptor whose `transformQuery` hook appends " B" to the SQL. -/
def appendBInterceptor : Interceptor :=
  { transformQuery := some (fun _ q => ⟨q.sql ++ " B", q.values⟩) }

/-- A configuration registering `appendAInterceptor` then `appendBInterceptor`. -/
def transformConfig : ClientConfiguration := ⟨false, [appendAInterceptor, appendBInterceptor]⟩

/-- An interceptor whose `transformRow` hook adds one to every value. -/
def incrementRowInterceptor : Interceptor :=
  { transformRow := some (fun _ _ row _ => row.map (fun v => v + 1)) }

/-- An interceptor whose `transformRow` hook doubles every value. -/
def doubleRowInterceptor : Interceptor :=
  { transformRow := some (fun _ _ row _ => row.map (fun v => v * 2)) }

/-- A configuration registering `incrementRowInterceptor` then
`doubleRowInterceptor`. -/
def rowConfig : ClientConfiguration := ⟨false, [incrementRowInterceptor, doubleRowInterceptor]⟩

/-- An interceptor whose `queryExecutionError` hook itself throws. -/
def throwingInterceptor : Interceptor :=
  { queryExecutionError := some (fun _ _ _ => .error "hook exploded") }

/-- A configuration with a benign error hook, then a throwing one, then another
benign one. -/
def throwConfig : ClientConfiguration :=
  ⟨false, [sampleInterceptor, throwingInterceptor, sampleInterceptor]⟩

theorem applyTransformQueryHooks_nil (ctx : QueryContext) (q : Query) :
    applyTransformQueryHooks ctx [] q = q := rfl

theorem applyTransformQueryHooks_cons (ctx : QueryContext) (interceptor : Interceptor)
    (rest : List Interceptor) (q : Query) :
    applyTransformQueryHooks ctx (interceptor :: rest) q =
      applyTransformQueryHooks ctx rest
        (match interceptor.transformQuery with
         | some f => f ctx q
         | none => q) := rfl

theorem applyTransformQueryHooks_append (ctx : QueryContext) (l1 l2 : List Interceptor)
    (q : Query) :
    applyTransformQueryHooks ctx (l1 ++ l2) q =
      applyTransformQueryHooks ctx l2 (applyTransformQueryHooks ctx l1 q) := by
  simp [applyTransformQueryHooks, List.foldl_append]

theorem applyTransformRowHooks_cons (ctx : QueryContext) (q : Query) (fields : List Field)
    (interceptor : Interceptor) (rest : List Interceptor) (row : Row) :
    applyTransformRowHooks ctx q fields (interceptor :: rest) row =
      applyTransformRowHooks ctx q fields rest
        (match interceptor.transformRow with
         | some f => f ctx q row fields
         | none => row) := rfl

theorem transformQuerySteps_snd (ctx : QueryContext) (l : List Interceptor) :
    ∀ (i : Nat) (q : Query),
      (transformQuerySteps ctx i l q).2 = applyTransformQueryHooks ctx l q := by
  induction l with
  | nil => intro i q; rfl
  | cons interceptor rest ih =>
    intro i q
    unfold transformQuerySteps
    cases h : interceptor.transformQuery with
    | some f => simp [h, ih, applyTransformQueryHooks_cons]
    | none => simp [h, ih, applyTransformQueryHooks_cons]

theorem beforeTransformQueryEvents_pre (l : List Interceptor) :
    ∀ i : Nat, ∀ e ∈ beforeTransformQueryEvents i l, isPreExecutionEvent e = true := by
  induction l with
  | nil => intro i e he; simp [beforeTransformQueryEvents] at he
  | cons interceptor rest ih =>
    intro i e he
    unfold beforeTransformQueryEvents at he
    cases h : interceptor.beforeTransformQuery with
    | some u =>
      simp only [h] at he
      rcases List.mem_cons.mp he with rfl | hm
      · rfl
      · exact ih (i + 1) e hm
    | none =>
      simp only [h] at he
      exact ih (i + 1) e he

theorem transformQuerySteps_events_pre (ctx : QueryContext) (l : List Interceptor) :
    ∀ (i : Nat) (q : Query), ∀ e ∈ (transformQuerySteps ctx i l q).1,
      isPreExecutionEvent e = true := by
  induction l with
  | nil => intro i q e he; simp [transformQuerySteps] at he
  | cons interceptor rest ih =>
    intro i q e he
    unfold transformQuerySteps at he
    cases h : interceptor.transformQuery with
    | some f =>
      simp only [h] at he
      rcases List.mem_cons.mp he with rfl | hm
      · rfl
      · exact ih (i + 1) (f ctx q) e hm
    | none =>
      simp only [h] at he
      exact ih (i + 1) q e he

theorem beforeQueryExecutionSteps_events_pre (ctx : QueryContext) (l : List Interceptor) :
    ∀ (i : Nat) (q : Query), ∀ e ∈ (beforeQueryExecutionSteps ctx i l q).1,
      isPreExecutionEvent e = true := by
  induction l with
  | nil => intro i q e he; simp [beforeQueryExecutionSteps] at he
  | cons interceptor rest ih =>
    intro i q e he
    unfold beforeQueryExecutionSteps at he
    cases h : interceptor.beforeQueryExecution with
    | some f =>
      cases hr : f ctx q with
      | some result =>
        simp only [h, hr] at he
        rcases List.mem_cons.mp he with rfl | hm
        · rfl
        · simp at hm
      | none =>
        simp only [h, hr] at he
        rcases List.mem_cons.mp he with rfl | hm
        · rfl
        · exact ih (i + 1) q e hm
    | none =>
      simp only [h] at he
      exact ih (i + 1) q e he

theorem queryExecutionErrorSteps_events_shape (ctx : QueryContext) (q : Query)
    (err : ExecError) (l : List Interceptor) :
    ∀ i : Nat, ∀ e ∈ (queryExecutionErrorSteps ctx q err i l).1,
      ∃ j, e = Event.queryExecutionErrorHook j := by
  induction l with
  | nil => intro i e he; simp [queryExecutionErrorSteps] at he
  | cons interceptor rest ih =>
    intro i e he
    unfold queryExecutionErrorSteps at he
    cases h : interceptor.queryExecutionError with
    | some f =>
      cases hr : f ctx q err with
      | error m =>
        simp only [h, hr] at he
        rcases List.mem_cons.mp he with rfl | hm
        · exact ⟨i, rfl⟩
        · simp at hm
      | ok u =>
        simp only [h, hr] at he
        rcases List.mem_cons.mp he with rfl | hm
        · exact ⟨i, rfl⟩
        · exact ih (i + 1) e hm
    | none =>
      simp only [h] at he
      exact ih (i + 1) e he

theorem afterQueryExecutionEvents_post (l : List Interceptor) :
    ∀ i : Nat, ∀ e ∈ afterQueryExecutionEvents i l, isPostExecutionEvent e = true := by
  induction l with
  | nil => intro i e he; simp [afterQueryExecutionEvents] at he
  | cons interceptor rest ih =>
    intro i e he
    unfold afterQueryExecutionEvents at he
    cases h : interceptor.afterQueryExecution with
    | some u =>
      simp only [h] at he
      rcases List.mem_cons.mp he with rfl | hm
      · rfl
      · exact ih (i + 1) e hm
    | none =>
      simp only [h] at he
      exact ih (i + 1) e he

theorem transformRowSteps_events_post (ctx : QueryContext) (q : Query)
    (l : List Interceptor) :
    ∀ (i : Nat) (result : QueryResult), ∀ e ∈ (transformRowSteps ctx q i l result).1,
      isPostExecutionEvent e = true := by
  induction l with
  | nil => intro i result e he; simp [transformRowSteps] at he
  | cons interceptor rest ih =>
    intro i result e he
    unfold transformRowSteps at he
    cases h : interceptor.transformRow with
    | some f =>
      simp only [h] at he
      rcases List.mem_cons.mp he with rfl | hm
      · rfl
      · exact ih (i + 1) _ e hm
    | none =>
      simp only [h] at he
      exact ih (i + 1) result e he

theorem beforeQueryResultEvents_post (l : List Interceptor) :
    ∀ i : Nat, ∀ e ∈ beforeQueryResultEvents i l, isPostExecutionEvent e = true := by
  induction l with
  | nil => intro i e he; simp [beforeQueryResultEvents] at he
  | cons interceptor rest ih =>
    intro i e he
    unfold beforeQueryResultEvents at he
    cases h : interceptor.beforeQueryResult with
    | some u =>
      simp only [h] at he
      rcases List.mem_cons.mp he with rfl | hm
      · rfl
      · exact ih (i + 1) e hm
    | none =>
      simp only [h] at he
      exact ih (i + 1) e he

theorem beforeQueryExecutionHookEvents_pre (l : List Interceptor) :
    ∀ i : Nat, ∀ e ∈ beforeQueryExecutionHookEvents i l, isPreExecutionEvent e = true := by
  induction l with
  | nil => intro i e he; simp [beforeQueryExecutionHookEvents] at he
  | cons interceptor rest ih =>
    intro i e he
    unfold beforeQueryExecutionHookEvents at he
    cases h : interceptor.beforeQueryExecution with
    | some f =>
      simp only [h] at he
      rcases List.mem_cons.mp he with rfl | hm
      · rfl
      · exact ih (i + 1) e hm
    | none =>
      simp only [h] at he
      exact ih (i + 1) e he

theorem not_mem_of_forall_true (p : Event → Bool) (l : List Event)
    (h : ∀ e ∈ l, p e = true) (e : Event) (hp : p e = false) : e ∉ l := by
  intro hm
  have ht := h e hm
  rw [hp] at ht
  exact Bool.noConfusion ht

theorem applyTransformRowHooks_append (ctx : QueryContext) (q : Query) (fields : List Field)
    (l1 l2 : List Interceptor) (row : Row) :
    applyTransformRowHooks ctx q fields (l1 ++ l2) row =
      applyTransformRowHooks ctx q fields l2 (applyTransformRowHooks ctx q fields l1 row) := by
  simp [applyTransformRowHooks, List.foldl_append]

theorem afterQueryExecutionEvents_shape (l : List Interceptor) :
    ∀ i : Nat, ∀ e ∈ afterQueryExecutionEvents i l,
      ∃ j, e = Event.afterQueryExecutionHook j := by
  induction l with
  | nil => intro i e he; simp [afterQueryExecutionEvents] at he
  | cons interceptor rest ih =>
    intro i e he
    unfold afterQueryExecutionEvents at he
    cases h : interceptor.afterQueryExecution with
    | some u =>
      simp only [h] at he
      rcases List.mem_cons.mp he with rfl | hm
      · exact ⟨i, rfl⟩
      · exact ih (i + 1) e hm
    | none =>
      simp only [h] at he
      exact ih (i + 1) e he

theorem beforeQueryResultEvents_shape (l : List Interceptor) :
    ∀ i : Nat, ∀ e ∈ beforeQueryResultEvents i l,
      ∃ j, e = Event.beforeQueryResultHook j := by
  induction l with
  | nil => intro i e he; simp [beforeQueryResultEvents] at he
  | cons interceptor rest ih =>
    intro i e he
    unfold beforeQueryResultEvents at he
    cases h : interceptor.beforeQueryResult with
    | some u =>
      simp only [h] at he
      rcases List.mem_cons.mp he with rfl | hm
      · exact ⟨i, rfl⟩
      · exact ih (i + 1) e hm
    | none =>
      simp only [h] at he
      exact ih (i + 1) e he

theorem queryExecutionErrorSteps_all_ok (ctx : QueryContext) (q : Query) (err : ExecError)
    (l : List Interceptor)
    (h : ∀ interceptor ∈ l, ∀ f, interceptor.queryExecutionError = some f →
      f ctx q err = .ok ()) :
    ∀ i : Nat, queryExecutionErrorSteps ctx q err i l =
      (queryExecutionErrorHookEvents i l, none) := by
  induction l with
  | nil => intro i; rfl
  | cons interceptor rest ih =>
    intro i
    have hrest : ∀ it ∈ rest, ∀ f, it.queryExecutionError = some f → f ctx q err = .ok () :=
      fun it hm f hf => h it (List.mem_cons_of_mem _ hm) f hf
    unfold queryExecutionErrorSteps queryExecutionErrorHookEvents
    cases hq : interceptor.queryExecutionError with
    | some f =>
      have hok := h interceptor (List.mem_cons_self _ _) f hq
      simp [hq, hok, ih hrest]
    | none => simp [hq, ih hrest]

theorem queryExecutionErrorSteps_first_throw (ctx : QueryContext) (q : Query)
    (err : ExecError) (l1 : List Interceptor) (interceptor : Interceptor)
    (l2 : List Interceptor) (f : QueryContext → Query → ExecError → Except String Unit)
    (m : String) (hf : interceptor.queryExecutionError = some f)
    (hm : f ctx q err = .error m)
    (h1 : ∀ it ∈ l1, ∀ g, it.queryExecutionError = some g → g ctx q err = .ok ()) :
    ∀ i : Nat, queryExecutionErrorSteps ctx q err i (l1 ++ interceptor :: l2) =
      (queryExecutionErrorHookEvents i l1 ++
        [Event.queryExecutionErrorHook (i + l1.length)], some m) := by
  induction l1 with
  | nil =>
    intro i
    unfold queryExecutionErrorSteps
    simp [hf, hm, queryExecutionErrorHookEvents]
  | cons it' rest ih =>
    intro i
    have hrest : ∀ it ∈ rest, ∀ g, it.queryExecutionError = some g → g ctx q err = .ok () :=
      fun it hmem g hg => h1 it (List.mem_cons_of_mem _ hmem) g hg
    have harith : i + 1 + rest.length = i + (it' :: rest).length := by
      simp [List.length_cons]; omega
    unfold queryExecutionErrorSteps queryExecutionErrorHookEvents
    cases hq : it'.queryExecutionError with
    | some g =>
      have hok := h1 it' (List.mem_cons_self _ _) g hq
      simp [hq, hok, ih hrest, harith]
    | none =>
      simp [hq, ih hrest, harith]

theorem beforeQueryExecutionSteps_short_circuit (ctx : QueryContext) (q : Query)
    (l1 : List Interceptor) (interceptor : Interceptor) (l2 : List Interceptor)
    (f : QueryContext → Query → Option QueryResult) (r : QueryResult)
    (hf : interceptor.beforeQueryExecution = some f) (hr : f ctx q = some r)
    (h1 : ∀ it ∈ l1, ∀ g, it.beforeQueryExecution = some g → g ctx q = none) :
    ∀ i : Nat, beforeQueryExecutionSteps ctx i (l1 ++ interceptor :: l2) q =
      (beforeQueryExecutionHookEvents i l1 ++
        [Event.beforeQueryExecutionHook (i + l1.length)], some r) := by
  induction l1 with
  | nil =>
    intro i
    unfold beforeQueryExecutionSteps
    simp [hf, hr, beforeQueryExecutionHookEvents]
  | cons it' rest ih =>
    intro i
    have hrest : ∀ it ∈ rest, ∀ g, it.beforeQueryExecution = some g → g ctx q = none :=
      fun it hmem g hg => h1 it (List.mem_cons_of_mem _ hmem) g hg
    have harith : i + 1 + rest.length = i + (it' :: rest).length := by
      simp [List.length_cons]; omega
    unfold beforeQueryExecutionSteps beforeQueryExecutionHookEvents
    cases hq : it'.beforeQueryExecution with
    | some g =>
      have hnone := h1 it' (List.mem_cons_self _ _) g hq
      simp [hq, hnone, ih hrest, harith]
    | none =>
      simp [hq, ih hrest, harith]

theorem transformRowSteps_snd (ctx : QueryContext) (q : Query) (l : List Interceptor) :
    ∀ (i : Nat) (result : QueryResult),
      (transformRowSteps ctx q i l result).2 =
        { result with rows := result.rows.map (fun rs => rs.map
            (fun row => applyTransformRowHooks ctx q result.fields l row)) } := by
  induction l with
  | nil =>
    intro i result
    simp [transformRowSteps, applyTransformRowHooks]
  | cons interceptor rest ih =>
    intro i result
    unfold transformRowSteps
    cases h : interceptor.transformRow with
    | some f =>
      simp only [h, ih, applyTransformRowHooks_cons, Option.map_map, List.map_map]
      simp [Function.comp_def, List.map_map]
    | none =>
      simp only [h, ih, applyTransformRowHooks_cons]

theorem executeQuery_reaches_execution (connection : ConnectionState)
    (clientConfiguration : ClientConfiguration) (rawSql : String) (values : List Value)
    (inheritedQueryId : Option Nat) (freshQueryId : Nat)
    (normaliseQueryValues : List Value → Bool → List Value)
    (executionRoutine : String → List Value → Query → Except DriverError QueryResult)
    (noticesDuring : List Notice) (ctx : QueryContext) (actual : Query)
    (h1 : connection.terminated = none)
    (h2 : jsTrim rawSql ≠ "") (h3 : jsTrim rawSql ≠ "$1")
    (hctx : ctx = contextOf connection rawSql values inheritedQueryId freshQueryId)
    (hactual : actual = (transformQuerySteps ctx 0 clientConfiguration.interceptors
      { sql := rawSql, values := values }).2)
    (h4 : (beforeQueryExecutionSteps ctx 0 clientConfiguration.interceptors actual).2 = none) :
    executeQuery connection clientConfiguration rawSql values inheritedQueryId freshQueryId
        normaliseQueryValues executionRoutine noticesDuring =
      ⟨beforeTransformQueryEvents 0 clientConfiguration.interceptors
          ++ (transformQuerySteps ctx 0 clientConfiguration.interceptors
                { sql := rawSql, values := values }).1
          ++ (beforeQueryExecutionSteps ctx 0 clientConfiguration.interceptors actual).1
          ++ (runExecution connection clientConfiguration.interceptors ctx actual
                normaliseQueryValues executionRoutine noticesDuring).events,
        (runExecution connection clientConfiguration.interceptors ctx actual
          normaliseQueryValues executionRoutine noticesDuring).result,
        (runExecution connection clientConfiguration.interceptors ctx actual
          normaliseQueryValues executionRoutine noticesDuring).connectionAfter⟩ := by
  subst hctx
  subst hactual
  unfold executeQuery
  simp only [h1, if_neg h2, if_neg h3, h4]

/-- C1, counterexample: the claim's table sends every code-57014 error whose
message does not indicate a timeout to `StatementCancelled`, but an error with
code 57014 and message "Connection terminated" is classified as
`BackendTerminated`, because the backend-termination rule is checked first. -/
theorem c1_counterexample :
    (executeQuery ⟨none, false, 0⟩ ⟨false, []⟩ "SELECT 1" [] none 0 idNormalise
        (fun _ _ _ => .error cancelledTerminationError) []).result =
      .error (.backendTerminatedError cancelledTerminationError) ∧
    (executeQuery ⟨none, false, 0⟩ ⟨false, []⟩ "SELECT 1" [] none 0 idNormalise
        (fun _ _ _ => .error cancelledTerminationError) []).result ≠
      .error (.statementCancelledError cancelledTerminationError) := by
  refine ⟨rfl, ?_⟩
  intro hcontra
  rw [show (executeQuery ⟨none, false, 0⟩ ⟨false, []⟩ "SELECT 1" [] none 0 idNormalise
      (fun _ _ _ => .error cancelledTerminationError) []).result =
    .error (.backendTerminatedError cancelledTerminationError) from rfl] at hcontra
  simp at hcontra

/-- C1, amended: for every raw driver error that does not match the
backend-termination rule (code 57P01 or message "Connection terminated"), which
the orchestrator checks first, the classification follows the claim's ordered
first-match-wins table — 57014 with a timeout message to `StatementTimeout`,
57014 otherwise to `StatementCancelled`, the four constraint codes to their
kinds carrying the driver-supplied constraint name, everything else re-raised
unchanged — and the connection state is left untouched. -/
theorem c1_classifier_matches_claimed_table (connection : ConnectionState)
    (error : DriverError) (hcode : error.code ≠ "57P01")
    (hmsg : error.message ≠ "Connection terminated") :
    handleExecutionError connection error = (connection, claimedClassificationTable error) := by
  unfold handleExecutionError claimedClassificationTable
  rw [if_neg (not_or.mpr ⟨hcode, hmsg⟩)]
  split_ifs <;> rfl

/-- C1, witness: the amended table at a concrete unique-violation error. -/
theorem c1_witness :
    handleExecutionError ⟨none, false, 0⟩ uniqueViolationCause =
      (⟨none, false, 0⟩, claimedClassificationTable uniqueViolationCause) :=
  c1_classifier_matches_claimed_table ⟨none, false, 0⟩ uniqueViolationCause
    (by decide) (by decide)

/-- C3: on a connection whose termination flag is unset, a SQL string that
trims to the empty string or to "$1" makes the call fail with `InvalidInput`,
with an empty event trace — so no interceptor hook runs and the execution
primitive is never invoked — and the connection state unchanged. -/
theorem c3_trivial_sql_rejected (connection : ConnectionState)
    (clientConfiguration : ClientConfiguration) (rawSql : String) (values : List Value)
    (inheritedQueryId : Option Nat) (freshQueryId : Nat)
    (normaliseQueryValues : List Value → Bool → List Value)
    (executionRoutine : String → List Value → Query → Except DriverError QueryResult)
    (noticesDuring : List Notice)
    (h1 : connection.terminated = none)
    (h2 : jsTrim rawSql = "" ∨ jsTrim rawSql = "$1") :
    (executeQuery connection clientConfiguration rawSql values inheritedQueryId freshQueryId
        normaliseQueryValues executionRoutine noticesDuring).events = [] ∧
    (∃ message, (executeQuery connection clientConfiguration rawSql values inheritedQueryId
        freshQueryId normaliseQueryValues executionRoutine noticesDuring).result =
      .error (.invalidInputError message)) ∧
    (executeQuery connection clientConfiguration rawSql values inheritedQueryId freshQueryId
        normaliseQueryValues executionRoutine noticesDuring).connectionAfter = connection := by
  rcases h2 with h2 | h2
  · refine ⟨?_, ⟨"Unexpected SQL input. Query cannot be empty.", ?_⟩, ?_⟩ <;>
      simp [executeQuery, h1, h2]
  · refine ⟨?_, ⟨"Unexpected SQL input. Query cannot be empty. Found only value binding.", ?_⟩, ?_⟩ <;>
      simp [executeQuery, h1, h2]

/-- C3, witness: a SQL string trimming to "$1", on a live connection with a
registered interceptor. -/
theorem c3_witness :
    (executeQuery ⟨none, false, 3⟩ sampleConfig "  $1 " [] none 0 idNormalise okRoutine
        []).events = [] ∧
    (∃ message, (executeQuery ⟨none, false, 3⟩ sampleConfig "  $1 " [] none 0 idNormalise
        okRoutine []).result = .error (.invalidInputError message)) ∧
    (executeQuery ⟨none, false, 3⟩ sampleConfig "  $1 " [] none 0 idNormalise okRoutine
        []).connectionAfter = ⟨none, false, 3⟩ :=
  c3_trivial_sql_rejected ⟨none, false, 3⟩ sampleConfig "  $1 " [] none 0 idNormalise
    okRoutine [] rfl (Or.inr (by decide))

/-- C4: if the connection's termination flag is already set, the call fails
immediately with `BackendTerminated` carrying the stored cause, the event trace
is empty (no interceptor hook of any kind fires, the execution primitive is not
reached), and the connection state is unchanged. -/
theorem c4_preset_termination_short_circuits (connection : ConnectionState)
    (clientConfiguration : ClientConfiguration) (rawSql : String) (values : List Value)
    (inheritedQueryId : Option Nat) (freshQueryId : Nat)
    (normaliseQueryValues : List Value → Bool → List Value)
    (executionRoutine : String → List Value → Query → Except DriverError QueryResult)
    (noticesDuring : List Notice) (cause : DriverError)
    (h : connection.terminated = some cause) :
    executeQuery connection clientConfiguration rawSql values inheritedQueryId freshQueryId
        normaliseQueryValues executionRoutine noticesDuring =
      ⟨[], .error (.backendTerminatedError cause), connection⟩ := by
  unfold executeQuery
  simp only [h]

/-- C4, witness: a terminated connection, with an interceptor registered. -/
theorem c4_witness :
    executeQuery ⟨some terminationCause, false, 3⟩ sampleConfig "SELECT 1" [] none 0
        idNormalise okRoutine [] =
      ⟨[], .error (.backendTerminatedError terminationCause),
        ⟨some terminationCause, false, 3⟩⟩ :=
  c4_preset_termination_short_circuits ⟨some terminationCause, false, 3⟩ sampleConfig
    "SELECT 1" [] none 0 idNormalise okRoutine [] terminationCause rfl

/-- C2: a driver failure with the termination code (57P01) or the
transport-closed message sets the connection's shared termination flag to that
error and (no error hook throwing) the call raises `BackendTerminated`; every
subsequent call on the resulting connection — any configuration, SQL, or
routine — fails immediately with `BackendTerminated` carrying the stored error,
with an empty event trace (the execution primitive is not reached) and the
connection state unchanged, so the flag is never cleared. -/
theorem c2_termination_flag_is_permanent (connection : ConnectionState)
    (clientConfiguration : ClientConfiguration) (rawSql : String) (values : List Value)
    (inheritedQueryId : Option Nat) (freshQueryId : Nat)
    (normaliseQueryValues : List Value → Bool → List Value)
    (executionRoutine : String → List Value → Query → Except DriverError QueryResult)
    (noticesDuring : List Notice) (ctx : QueryContext) (actual : Query) (e : DriverError)
    (h1 : connection.terminated = none)
    (h2 : jsTrim rawSql ≠ "") (h3 : jsTrim rawSql ≠ "$1")
    (hctx : ctx = contextOf connection rawSql values inheritedQueryId freshQueryId)
    (hactual : actual = (transformQuerySteps ctx 0 clientConfiguration.interceptors
      { sql := rawSql, values := values }).2)
    (h4 : (beforeQueryExecutionSteps ctx 0 clientConfiguration.interceptors actual).2 = none)
    (hroutine : executionRoutine actual.sql
      (normaliseQueryValues actual.values connection.native) actual = .error e)
    (hterm : e.code = "57P01" ∨ e.message = "Connection terminated")
    (hhooks : ∀ interceptor ∈ clientConfiguration.interceptors, ∀ g,
      interceptor.queryExecutionError = some g →
      g ctx actual (.backendTerminatedError e) = .ok ()) :
    (executeQuery connection clientConfiguration rawSql values inheritedQueryId freshQueryId
        normaliseQueryValues executionRoutine noticesDuring).connectionAfter.terminated =
      some e ∧
    (executeQuery connection clientConfiguration rawSql values inheritedQueryId freshQueryId
        normaliseQueryValues executionRoutine noticesDuring).result =
      .error (.backendTerminatedError e) ∧
    ∀ (clientConfiguration2 : ClientConfiguration) (rawSql2 : String) (values2 : List Value)
      (inheritedQueryId2 : Option Nat) (freshQueryId2 : Nat)
      (normaliseQueryValues2 : List Value → Bool → List Value)
      (executionRoutine2 : String → List Value → Query → Except DriverError QueryResult)
      (noticesDuring2 : List Notice),
      executeQuery (executeQuery connection clientConfiguration rawSql values inheritedQueryId
          freshQueryId normaliseQueryValues executionRoutine noticesDuring).connectionAfter
        clientConfiguration2 rawSql2 values2 inheritedQueryId2 freshQueryId2
        normaliseQueryValues2 executionRoutine2 noticesDuring2 =
      ⟨[], .error (.backendTerminatedError e),
        (executeQuery connection clientConfiguration rawSql values inheritedQueryId freshQueryId
          normaliseQueryValues executionRoutine noticesDuring).connectionAfter⟩ := by
  have hmaster := executeQuery_reaches_execution connection clientConfiguration rawSql values
    inheritedQueryId freshQueryId normaliseQueryValues executionRoutine noticesDuring ctx actual
    h1 h2 h3 hctx hactual h4
  have hhandled : handleExecutionError connection e =
      ({ connection with terminated := some e }, .backendTerminatedError e) := by
    unfold handleExecutionError
    rw [if_pos hterm]
  have hrun : runExecution connection clientConfiguration.interceptors ctx actual
      normaliseQueryValues executionRoutine noticesDuring =
      ⟨[Event.noticeListenerOn,
          Event.executionRoutineInvoked actual.sql
            (normaliseQueryValues actual.values connection.native) actual,
          Event.noticeListenerOff]
          ++ queryExecutionErrorHookEvents 0 clientConfiguration.interceptors,
        .error (.backendTerminatedError e),
        { connection with terminated := some e }⟩ := by
    unfold runExecution
    simp only [hroutine, hhandled,
      queryExecutionErrorSteps_all_ok ctx actual (.backendTerminatedError e)
        clientConfiguration.interceptors hhooks]
  rw [hmaster, hrun]
  exact ⟨rfl, rfl, fun _ _ _ _ _ _ _ _ => rfl⟩

/-- C2, witness: a concrete call whose routine fails with a 57P01 error, then a
concrete second call on the resulting connection. -/
theorem c2_witness :
    (executeQuery ⟨none, false, 3⟩ sampleConfig "SELECT 1" [] none 0 idNormalise
        (fun _ _ _ => .error terminationCause) []).connectionAfter.terminated =
      some terminationCause ∧
    (executeQuery ⟨none, false, 3⟩ sampleConfig "SELECT 1" [] none 0 idNormalise
        (fun _ _ _ => .error terminationCause) []).result =
      .error (.backendTerminatedError terminationCause) ∧
    executeQuery (executeQuery ⟨none, false, 3⟩ sampleConfig "SELECT 1" [] none 0 idNormalise
        (fun _ _ _ => .error terminationCause) []).connectionAfter
        sampleConfig "SELECT 2" [] none 1 idNormalise okRoutine [] =
      ⟨[], .error (.backendTerminatedError terminationCause),
        (executeQuery ⟨none, false, 3⟩ sampleConfig "SELECT 1" [] none 0 idNormalise
          (fun _ _ _ => .error terminationCause) []).connectionAfter⟩ := by
  have h := c2_termination_flag_is_permanent ⟨none, false, 3⟩ sampleConfig "SELECT 1" [] none 0
    idNormalise (fun _ _ _ => .error terminationCause) []
    (contextOf ⟨none, false, 3⟩ "SELECT 1" [] none 0) ⟨"SELECT 1", []⟩ terminationCause
    rfl (by decide) (by decide) rfl rfl rfl rfl (Or.inl rfl)
    (by
      intro interceptor hm g hg
      have hi : interceptor = sampleInterceptor := by
        simpa [sampleConfig] using hm
      subst hi
      have hg' : some (fun _ _ _ => (Except.ok () : Except String Unit)) = some g := hg
      rw [← Option.some.inj hg'])
  exact ⟨h.1, h.2.1, h.2.2 sampleConfig "SELECT 2" [] none 1 idNormalise okRoutine []⟩

/-- C5: if, among the registered interceptors, every `beforeQueryExecution`
hook before position `l1.length` returns no result and the hook at that
position returns a non-empty result `r` on the transformed query, the call
returns `r` immediately: the trace shows only pre-execution hook events, the
notice listener is never registered, the execution primitive is never invoked,
and no `afterQueryExecution`, `transformRow`, or `beforeQueryResult` hook
runs. -/
theorem c5_before_query_execution_short_circuit (connection : ConnectionState)
    (clientConfiguration : ClientConfiguration) (rawSql : String) (values : List Value)
    (inheritedQueryId : Option Nat) (freshQueryId : Nat)
    (normaliseQueryValues : List Value → Bool → List Value)
    (executionRoutine : String → List Value → Query → Except DriverError QueryResult)
    (noticesDuring : List Notice) (ctx : QueryContext) (actual : Query)
    (l1 : List Interceptor) (interceptor : Interceptor) (l2 : List Interceptor)
    (f : QueryContext → Query → Option QueryResult) (r : QueryResult)
    (h1 : connection.terminated = none)
    (h2 : jsTrim rawSql ≠ "") (h3 : jsTrim rawSql ≠ "$1")
    (hctx : ctx = contextOf connection rawSql values inheritedQueryId freshQueryId)
    (hactual : actual = (transformQuerySteps ctx 0 clientConfiguration.interceptors
      { sql := rawSql, values := values }).2)
    (hsplit : clientConfiguration.interceptors = l1 ++ interceptor :: l2)
    (hf : interceptor.beforeQueryExecution = some f) (hr : f ctx actual = some r)
    (hearlier : ∀ it ∈ l1, ∀ g, it.beforeQueryExecution = some g → g ctx actual = none) :
    executeQuery connection clientConfiguration rawSql values inheritedQueryId freshQueryId
        normaliseQueryValues executionRoutine noticesDuring =
      ⟨beforeTransformQueryEvents 0 clientConfiguration.interceptors
          ++ (transformQuerySteps ctx 0 clientConfiguration.interceptors
                { sql := rawSql, values := values }).1
          ++ (beforeQueryExecutionHookEvents 0 l1
              ++ [Event.beforeQueryExecutionHook l1.length]),
        .ok r, connection⟩ ∧
    Event.noticeListenerOn ∉ (executeQuery connection clientConfiguration rawSql values
      inheritedQueryId freshQueryId normaliseQueryValues executionRoutine noticesDuring).events ∧
    (∀ s v q', Event.executionRoutineInvoked s v q' ∉ (executeQuery connection
      clientConfiguration rawSql values inheritedQueryId freshQueryId normaliseQueryValues
      executionRoutine noticesDuring).events) ∧
    (∀ j, Event.afterQueryExecutionHook j ∉ (executeQuery connection clientConfiguration
      rawSql values inheritedQueryId freshQueryId normaliseQueryValues executionRoutine
      noticesDuring).events) ∧
    (∀ j, Event.transformRowHook j ∉ (executeQuery connection clientConfiguration rawSql
      values inheritedQueryId freshQueryId normaliseQueryValues executionRoutine
      noticesDuring).events) ∧
    (∀ j, Event.beforeQueryResultHook j ∉ (executeQuery connection clientConfiguration rawSql
      values inheritedQueryId freshQueryId normaliseQueryValues executionRoutine
      noticesDuring).events) := by
  have hsteps := beforeQueryExecutionSteps_short_circuit ctx actual l1 interceptor l2 f r
    hf hr hearlier 0
  have heq : executeQuery connection clientConfiguration rawSql values inheritedQueryId
      freshQueryId normaliseQueryValues executionRoutine noticesDuring =
      ⟨beforeTransformQueryEvents 0 clientConfiguration.interceptors
          ++ (transformQuerySteps ctx 0 clientConfiguration.interceptors
                { sql := rawSql, values := values }).1
          ++ (beforeQueryExecutionHookEvents 0 l1
              ++ [Event.beforeQueryExecutionHook l1.length]),
        .ok r, connection⟩ := by
    unfold executeQuery
    simp only [h1, if_neg h2, if_neg h3]
    rw [← hctx, ← hactual, hsplit]
    rw [hsteps]
    simp
  have hall : ∀ e ∈ (executeQuery connection clientConfiguration rawSql values
      inheritedQueryId freshQueryId normaliseQueryValues executionRoutine
      noticesDuring).events, isPreExecutionEvent e = true := by
    rw [heq]
    intro e he
    rcases List.mem_append.mp he with h12 | h34
    · rcases List.mem_append.mp h12 with ha | hb
      · exact beforeTransformQueryEvents_pre _ 0 e ha
      · exact transformQuerySteps_events_pre ctx _ 0 _ e hb
    · rcases List.mem_append.mp h34 with hc | hd
      · exact beforeQueryExecutionHookEvents_pre l1 0 e hc
      · rw [List.mem_singleton.mp hd]; rfl
  refine ⟨heq, ?_, ?_, ?_, ?_, ?_⟩
  · exact not_mem_of_forall_true _ _ hall _ rfl
  · intro s v q'
    exact not_mem_of_forall_true _ _ hall _ rfl
  · intro j
    exact not_mem_of_forall_true _ _ hall _ rfl
  · intro j
    exact not_mem_of_forall_true _ _ hall _ rfl
  · intro j
    exact not_mem_of_forall_true _ _ hall _ rfl

/-- C5, witness: a pass-through hook followed by a caching hook; the call
returns the cached result without registering the notice listener. -/
theorem c5_witness :
    executeQuery ⟨none, false, 5⟩ shortCircuitConfig "SELECT 1" [] none 0 idNormalise
        okRoutine [] =
      ⟨beforeTransformQueryEvents 0 shortCircuitConfig.interceptors
          ++ (transformQuerySteps (contextOf ⟨none, false, 5⟩ "SELECT 1" [] none 0) 0
                shortCircuitConfig.interceptors { sql := "SELECT 1", values := [] }).1
          ++ (beforeQueryExecutionHookEvents 0 [passInterceptor]
              ++ [Event.beforeQueryExecutionHook [passInterceptor].length]),
        .ok shortCircuitResult, ⟨none, false, 5⟩⟩ ∧
    Event.noticeListenerOn ∉ (executeQuery ⟨none, false, 5⟩ shortCircuitConfig "SELECT 1" []
      none 0 idNormalise okRoutine []).events := by
  have h := c5_before_query_execution_short_circuit ⟨none, false, 5⟩ shortCircuitConfig
    "SELECT 1" [] none 0 idNormalise okRoutine []
    (contextOf ⟨none, false, 5⟩ "SELECT 1" [] none 0) ⟨"SELECT 1", []⟩
    [passInterceptor] cacheInterceptor [] (fun _ _ => some shortCircuitResult)
    shortCircuitResult rfl (by decide) (by decide) rfl rfl rfl rfl rfl
    (by
      intro it hm g hg
      have hi : it = passInterceptor := by simpa using hm
      subst hi
      have hg' : some (fun _ _ => (none : Option QueryResult)) = some g := hg
      rw [← Option.some.inj hg'])
  exact ⟨h.1, h.2.1⟩

theorem preEvents_all_pre (ctx : QueryContext) (interceptors : List Interceptor)
    (originalQuery actual : Query) :
    ∀ e ∈ beforeTransformQueryEvents 0 interceptors
      ++ (transformQuerySteps ctx 0 interceptors originalQuery).1
      ++ (beforeQueryExecutionSteps ctx 0 interceptors actual).1,
      isPreExecutionEvent e = true := by
  intro e he
  rcases List.mem_append.mp he with h12 | h3'
  · rcases List.mem_append.mp h12 with ha | hb
    · exact beforeTransformQueryEvents_pre _ 0 e ha
    · exact transformQuerySteps_events_pre ctx _ 0 _ e hb
  · exact beforeQueryExecutionSteps_events_pre ctx _ 0 _ e h3'

theorem runExecution_events_decomposition (connection : ConnectionState)
    (interceptors : List Interceptor) (ctx : QueryContext) (actual : Query)
    (normaliseQueryValues : List Value → Bool → List Value)
    (executionRoutine : String → List Value → Query → Except DriverError QueryResult)
    (noticesDuring : List Notice) :
    ∃ post,
      (runExecution connection interceptors ctx actual
        normaliseQueryValues executionRoutine noticesDuring).events =
      [Event.noticeListenerOn,
        Event.executionRoutineInvoked actual.sql
          (normaliseQueryValues actual.values connection.native) actual,
        Event.noticeListenerOff] ++ post ∧
      (∀ e ∈ post, isPostExecutionEvent e = true) := by
  unfold runExecution
  cases hcase : executionRoutine actual.sql
      (normaliseQueryValues actual.values connection.native) actual with
  | error e =>
    refine ⟨(queryExecutionErrorSteps ctx actual (handleExecutionError connection e).2 0
      interceptors).1, by simp only [hcase], ?_⟩
    intro ev hev
    rcases queryExecutionErrorSteps_events_shape ctx actual _ _ 0 ev hev with ⟨j, rfl⟩
    rfl
  | ok raw =>
    cases hrows : raw.rows with
    | none =>
      refine ⟨afterQueryExecutionEvents 0 interceptors
          ++ beforeQueryResultEvents 0 interceptors, ?_, ?_⟩
      · simp only [hcase, hrows]
        simp [List.append_assoc]
      · intro ev hev
        rcases List.mem_append.mp hev with ha | hb
        · exact afterQueryExecutionEvents_post _ 0 ev ha
        · exact beforeQueryResultEvents_post _ 0 ev hb
    | some rs =>
      refine ⟨afterQueryExecutionEvents 0 interceptors
          ++ (transformRowSteps ctx actual 0 interceptors
              { rows := some rs, fields := raw.fields, notices := noticesDuring }).1
          ++ beforeQueryResultEvents 0 interceptors, ?_, ?_⟩
      · simp only [hcase, hrows]
        simp [List.append_assoc]
      · intro ev hev
        rcases List.mem_append.mp hev with hab | hc
        · rcases List.mem_append.mp hab with ha | hb
          · exact afterQueryExecutionEvents_post _ 0 ev ha
          · exact transformRowSteps_events_post ctx actual _ 0 _ ev hb
        · exact beforeQueryResultEvents_post _ 0 ev hc

/-- C6: every call that reaches the execution primitive has a trace of the form
`pre ++ [listener on, primitive invocation, listener off] ++ post`, where `pre`
holds only pre-execution hook events and `post` only post-execution hook
events — on every exit path (success, classified error, unclassified rethrow)
the listener is registered immediately before the invocation and removed
immediately after it, before any `queryExecutionError` hook event; no other
listener registration or removal occurs, so after the call the listener is no
longer attached. -/
theorem c6_notice_listener_scoped (connection : ConnectionState)
    (clientConfiguration : ClientConfiguration) (rawSql : String) (values : List Value)
    (inheritedQueryId : Option Nat) (freshQueryId : Nat)
    (normaliseQueryValues : List Value → Bool → List Value)
    (executionRoutine : String → List Value → Query → Except DriverError QueryResult)
    (noticesDuring : List Notice) (ctx : QueryContext) (actual : Query)
    (h1 : connection.terminated = none)
    (h2 : jsTrim rawSql ≠ "") (h3 : jsTrim rawSql ≠ "$1")
    (hctx : ctx = contextOf connection rawSql values inheritedQueryId freshQueryId)
    (hactual : actual = (transformQuerySteps ctx 0 clientConfiguration.interceptors
      { sql := rawSql, values := values }).2)
    (h4 : (beforeQueryExecutionSteps ctx 0 clientConfiguration.interceptors actual).2 = none) :
    ∃ pre post,
      (executeQuery connection clientConfiguration rawSql values inheritedQueryId freshQueryId
        normaliseQueryValues executionRoutine noticesDuring).events =
        pre ++ [Event.noticeListenerOn,
          Event.executionRoutineInvoked actual.sql
            (normaliseQueryValues actual.values connection.native) actual,
          Event.noticeListenerOff] ++ post ∧
      (∀ e ∈ pre, isPreExecutionEvent e = true) ∧
      (∀ e ∈ post, isPostExecutionEvent e = true) ∧
      Event.noticeListenerOn ∉ pre ∧ Event.noticeListenerOn ∉ post ∧
      Event.noticeListenerOff ∉ pre ∧ Event.noticeListenerOff ∉ post ∧
      (∀ j, Event.queryExecutionErrorHook j ∉ pre) := by
  rcases runExecution_events_decomposition connection clientConfiguration.interceptors ctx
    actual normaliseQueryValues executionRoutine noticesDuring with ⟨post, hrunE, hpost⟩
  rw [executeQuery_reaches_execution connection clientConfiguration rawSql values
    inheritedQueryId freshQueryId normaliseQueryValues executionRoutine noticesDuring ctx actual
    h1 h2 h3 hctx hactual h4]
  have hpre : ∀ e ∈ beforeTransformQueryEvents 0 clientConfiguration.interceptors
      ++ (transformQuerySteps ctx 0 clientConfiguration.interceptors
            { sql := rawSql, values := values }).1
      ++ (beforeQueryExecutionSteps ctx 0 clientConfiguration.interceptors actual).1,
      isPreExecutionEvent e = true := by
    intro e he
    rcases List.mem_append.mp he with h12 | h3'
    · rcases List.mem_append.mp h12 with ha | hb
      · exact beforeTransformQueryEvents_pre _ 0 e ha
      · exact transformQuerySteps_events_pre ctx _ 0 _ e hb
    · exact beforeQueryExecutionSteps_events_pre ctx _ 0 _ e h3'
  refine ⟨beforeTransformQueryEvents 0 clientConfiguration.interceptors
      ++ (transformQuerySteps ctx 0 clientConfiguration.interceptors
            { sql := rawSql, values := values }).1
      ++ (beforeQueryExecutionSteps ctx 0 clientConfiguration.interceptors actual).1,
    post, ?_, hpre, hpost, ?_, ?_, ?_, ?_, ?_⟩
  · show beforeTransformQueryEvents 0 clientConfiguration.interceptors
        ++ (transformQuerySteps ctx 0 clientConfiguration.interceptors
              { sql := rawSql, values := values }).1
        ++ (beforeQueryExecutionSteps ctx 0 clientConfiguration.interceptors actual).1
        ++ (runExecution connection clientConfiguration.interceptors ctx actual
              normaliseQueryValues executionRoutine noticesDuring).events = _
    rw [hrunE]
    simp [List.append_assoc]
  · exact not_mem_of_forall_true _ _ hpre _ rfl
  · exact not_mem_of_forall_true _ _ hpost _ rfl
  · exact not_mem_of_forall_true _ _ hpre _ rfl
  · exact not_mem_of_forall_true _ _ hpost _ rfl
  · intro j
    exact not_mem_of_forall_true _ _ hpre _ rfl

/-- C6, witness: a successful concrete execution; its trace decomposes around
the listener-scoped invocation. -/
theorem c6_witness :
    ∃ pre post,
      (executeQuery ⟨none, false, 3⟩ sampleConfig "SELECT 1" [] none 0 idNormalise okRoutine
        []).events =
        pre ++ [Event.noticeListenerOn,
          Event.executionRoutineInvoked (Query.mk "SELECT 1" []).sql
            (idNormalise (Query.mk "SELECT 1" []).values false) (Query.mk "SELECT 1" []),
          Event.noticeListenerOff] ++ post ∧
      (∀ e ∈ pre, isPreExecutionEvent e = true) ∧
      (∀ e ∈ post, isPostExecutionEvent e = true) ∧
      Event.noticeListenerOn ∉ pre ∧ Event.noticeListenerOn ∉ post ∧
      Event.noticeListenerOff ∉ pre ∧ Event.noticeListenerOff ∉ post ∧
      (∀ j, Event.queryExecutionErrorHook j ∉ pre) :=
  c6_notice_listener_scoped ⟨none, false, 3⟩ sampleConfig "SELECT 1" [] none 0 idNormalise
    okRoutine [] (contextOf ⟨none, false, 3⟩ "SELECT 1" [] none 0) ⟨"SELECT 1", []⟩
    rfl (by decide) (by decide) rfl rfl rfl

/-- C7: for every call that reaches the execution primitive, the query the
primitive receives is the left fold of the `transformQuery` hooks, in
registration order, over the copy of the original query: the invocation event
carries that query, its sql, and its normalised values; and each hook at
position `l1.length` receives exactly the output of the fold of the hooks
before it (the first hook receives the original copy). -/
theorem c7_transform_query_composition (connection : ConnectionState)
    (clientConfiguration : ClientConfiguration) (rawSql : String) (values : List Value)
    (inheritedQueryId : Option Nat) (freshQueryId : Nat)
    (normaliseQueryValues : List Value → Bool → List Value)
    (executionRoutine : String → List Value → Query → Except DriverError QueryResult)
    (noticesDuring : List Notice) (ctx : QueryContext) (actual : Query)
    (h1 : connection.terminated = none)
    (h2 : jsTrim rawSql ≠ "") (h3 : jsTrim rawSql ≠ "$1")
    (hctx : ctx = contextOf connection rawSql values inheritedQueryId freshQueryId)
    (hactual : actual = (transformQuerySteps ctx 0 clientConfiguration.interceptors
      { sql := rawSql, values := values }).2)
    (h4 : (beforeQueryExecutionSteps ctx 0 clientConfiguration.interceptors actual).2 = none) :
    actual = applyTransformQueryHooks ctx clientConfiguration.interceptors
      { sql := rawSql, values := values } ∧
    Event.executionRoutineInvoked actual.sql
        (normaliseQueryValues actual.values connection.native) actual ∈
      (executeQuery connection clientConfiguration rawSql values inheritedQueryId freshQueryId
        normaliseQueryValues executionRoutine noticesDuring).events ∧
    (∀ (l1 : List Interceptor) (interceptor : Interceptor) (l2 : List Interceptor)
        (f : QueryContext → Query → Query),
      clientConfiguration.interceptors = l1 ++ interceptor :: l2 →
      interceptor.transformQuery = some f →
      applyTransformQueryHooks ctx clientConfiguration.interceptors
          { sql := rawSql, values := values } =
        applyTransformQueryHooks ctx l2
          (f ctx (applyTransformQueryHooks ctx l1 { sql := rawSql, values := values }))) := by
  refine ⟨hactual.trans (transformQuerySteps_snd ctx _ 0 _), ?_, ?_⟩
  · rcases runExecution_events_decomposition connection clientConfiguration.interceptors ctx
      actual normaliseQueryValues executionRoutine noticesDuring with ⟨post, hrunE, hpost⟩
    rw [executeQuery_reaches_execution connection clientConfiguration rawSql values
      inheritedQueryId freshQueryId normaliseQueryValues executionRoutine noticesDuring ctx
      actual h1 h2 h3 hctx hactual h4]
    show Event.executionRoutineInvoked actual.sql
        (normaliseQueryValues actual.values connection.native) actual ∈
      beforeTransformQueryEvents 0 clientConfiguration.interceptors
        ++ (transformQuerySteps ctx 0 clientConfiguration.interceptors
              { sql := rawSql, values := values }).1
        ++ (beforeQueryExecutionSteps ctx 0 clientConfiguration.interceptors actual).1
        ++ (runExecution connection clientConfiguration.interceptors ctx actual
              normaliseQueryValues executionRoutine noticesDuring).events
    rw [hrunE]
    simp
  · intro l1 interceptor l2 f hsplit hf
    rw [hsplit, applyTransformQueryHooks_append]
    simp [applyTransformQueryHooks_cons, hf]

/-- C7, witness: two appending `transformQuery` hooks compose in registration
order; the primitive receives the fully transformed query. -/
theorem c7_witness :
    (⟨"SELECT 1 A B", []⟩ : Query) =
      applyTransformQueryHooks (contextOf ⟨none, false, 3⟩ "SELECT 1" [] none 0)
        transformConfig.interceptors ⟨"SELECT 1", []⟩ ∧
    Event.executionRoutineInvoked (Query.mk "SELECT 1 A B" []).sql
        (idNormalise (Query.mk "SELECT 1 A B" []).values false) (Query.mk "SELECT 1 A B" []) ∈
      (executeQuery ⟨none, false, 3⟩ transformConfig "SELECT 1" [] none 0 idNormalise
        okRoutine []).events ∧
    applyTransformQueryHooks (contextOf ⟨none, false, 3⟩ "SELECT 1" [] none 0)
        transformConfig.interceptors ⟨"SELECT 1", []⟩ =
      applyTransformQueryHooks (contextOf ⟨none, false, 3⟩ "SELECT 1" [] none 0) []
        ((fun _ q => (⟨q.sql ++ " B", q.values⟩ : Query))
          (contextOf ⟨none, false, 3⟩ "SELECT 1" [] none 0)
          (applyTransformQueryHooks (contextOf ⟨none, false, 3⟩ "SELECT 1" [] none 0)
            [appendAInterceptor] ⟨"SELECT 1", []⟩)) := by
  have h := c7_transform_query_composition ⟨none, false, 3⟩ transformConfig "SELECT 1" []
    none 0 idNormalise okRoutine [] (contextOf ⟨none, false, 3⟩ "SELECT 1" [] none 0)
    ⟨"SELECT 1 A B", []⟩ rfl (by decide) (by decide) rfl rfl rfl
  exact ⟨h.1, h.2.1, h.2.2 [appendAInterceptor] appendBInterceptor []
    (fun _ q => ⟨q.sql ++ " B", q.values⟩) rfl rfl⟩

/-- C8: when the execution primitive fails, the call never succeeds — no hook
return value can convert the failure into a success; and if no
`queryExecutionError` hook itself throws, the call re-raises exactly the
classified (or passthrough) error and the trace ends with one
`queryExecutionError` hook event per implementing interceptor, in registration
order, after the listener has been removed. -/
theorem c8_error_fanout_and_reraise (connection : ConnectionState)
    (clientConfiguration : ClientConfiguration) (rawSql : String) (values : List Value)
    (inheritedQueryId : Option Nat) (freshQueryId : Nat)
    (normaliseQueryValues : List Value → Bool → List Value)
    (executionRoutine : String → List Value → Query → Except DriverError QueryResult)
    (noticesDuring : List Notice) (ctx : QueryContext) (actual : Query) (e : DriverError)
    (h1 : connection.terminated = none)
    (h2 : jsTrim rawSql ≠ "") (h3 : jsTrim rawSql ≠ "$1")
    (hctx : ctx = contextOf connection rawSql values inheritedQueryId freshQueryId)
    (hactual : actual = (transformQuerySteps ctx 0 clientConfiguration.interceptors
      { sql := rawSql, values := values }).2)
    (h4 : (beforeQueryExecutionSteps ctx 0 clientConfiguration.interceptors actual).2 = none)
    (hroutine : executionRoutine actual.sql
      (normaliseQueryValues actual.values connection.native) actual = .error e) :
    (∃ err, (executeQuery connection clientConfiguration rawSql values inheritedQueryId
      freshQueryId normaliseQueryValues executionRoutine noticesDuring).result =
      .error err) ∧
    ((∀ interceptor ∈ clientConfiguration.interceptors, ∀ g,
        interceptor.queryExecutionError = some g →
        g ctx actual (handleExecutionError connection e).2 = .ok ()) →
      (executeQuery connection clientConfiguration rawSql values inheritedQueryId freshQueryId
          normaliseQueryValues executionRoutine noticesDuring).result =
        .error (handleExecutionError connection e).2 ∧
      (executeQuery connection clientConfiguration rawSql values inheritedQueryId freshQueryId
          normaliseQueryValues executionRoutine noticesDuring).events =
        beforeTransformQueryEvents 0 clientConfiguration.interceptors
          ++ (transformQuerySteps ctx 0 clientConfiguration.interceptors
                { sql := rawSql, values := values }).1
          ++ (beforeQueryExecutionSteps ctx 0 clientConfiguration.interceptors actual).1
          ++ [Event.noticeListenerOn,
              Event.executionRoutineInvoked actual.sql
                (normaliseQueryValues actual.values connection.native) actual,
              Event.noticeListenerOff]
          ++ queryExecutionErrorHookEvents 0 clientConfiguration.interceptors) := by
  rw [executeQuery_reaches_execution connection clientConfiguration rawSql values
    inheritedQueryId freshQueryId normaliseQueryValues executionRoutine noticesDuring ctx
    actual h1 h2 h3 hctx hactual h4]
  constructor
  · show ∃ err, (runExecution connection clientConfiguration.interceptors ctx actual
      normaliseQueryValues executionRoutine noticesDuring).result = .error err
    unfold runExecution
    simp only [hroutine]
    exact ⟨_, rfl⟩
  · intro hhooks
    have hsteps := queryExecutionErrorSteps_all_ok ctx actual
      (handleExecutionError connection e).2 clientConfiguration.interceptors hhooks 0
    constructor
    · show (runExecution connection clientConfiguration.interceptors ctx actual
        normaliseQueryValues executionRoutine noticesDuring).result = _
      unfold runExecution
      simp only [hroutine, hsteps]
    · show beforeTransformQueryEvents 0 clientConfiguration.interceptors
          ++ (transformQuerySteps ctx 0 clientConfiguration.interceptors
                { sql := rawSql, values := values }).1
          ++ (beforeQueryExecutionSteps ctx 0 clientConfiguration.interceptors actual).1
          ++ (runExecution connection clientConfiguration.interceptors ctx actual
                normaliseQueryValues executionRoutine noticesDuring).events = _
      unfold runExecution
      simp only [hroutine, hsteps]
      simp [List.append_assoc]

/-- C8, witness: a constraint-violation failure fanned out to a benign error
hook; the classified error is re-raised. -/
theorem c8_witness :
    (executeQuery ⟨none, false, 3⟩ sampleConfig "SELECT 1" [] none 0 idNormalise
        (fun _ _ _ => .error uniqueViolationCause) []).result =
      .error (handleExecutionError ⟨none, false, 3⟩ uniqueViolationCause).2 ∧
    (executeQuery ⟨none, false, 3⟩ sampleConfig "SELECT 1" [] none 0 idNormalise
        (fun _ _ _ => .error uniqueViolationCause) []).events =
      beforeTransformQueryEvents 0 sampleConfig.interceptors
        ++ (transformQuerySteps (contextOf ⟨none, false, 3⟩ "SELECT 1" [] none 0) 0
              sampleConfig.interceptors { sql := "SELECT 1", values := [] }).1
        ++ (beforeQueryExecutionSteps (contextOf ⟨none, false, 3⟩ "SELECT 1" [] none 0) 0
              sampleConfig.interceptors ⟨"SELECT 1", []⟩).1
        ++ [Event.noticeListenerOn,
            Event.executionRoutineInvoked "SELECT 1" [] ⟨"SELECT 1", []⟩,
            Event.noticeListenerOff]
        ++ queryExecutionErrorHookEvents 0 sampleConfig.interceptors := by
  have h := c8_error_fanout_and_reraise ⟨none, false, 3⟩ sampleConfig "SELECT 1" [] none 0
    idNormalise (fun _ _ _ => .error uniqueViolationCause) []
    (contextOf ⟨none, false, 3⟩ "SELECT 1" [] none 0) ⟨"SELECT 1", []⟩ uniqueViolationCause
    rfl (by decide) (by decide) rfl rfl rfl rfl
  exact h.2 (by
    intro interceptor hm g hg
    have hi : interceptor = sampleInterceptor := by simpa [sampleConfig] using hm
    subst hi
    have hg' : some (fun _ _ _ => (Except.ok () : Except String Unit)) = some g := hg
    rw [← Option.some.inj hg'])

/-- C9: on a successful execution whose result carries rows, every returned row
is the left fold of all registered `transformRow` hooks, in registration order,
over the original row (each hook at position `l1.length` receiving the fold of
the hooks before it); when the result carries no rows (streaming execution),
the result passes through unchanged (with the notices attached) and no
`transformRow` hook event occurs. -/
theorem c9_transform_row_composition (connection : ConnectionState)
    (clientConfiguration : ClientConfiguration) (rawSql : String) (values : List Value)
    (inheritedQueryId : Option Nat) (freshQueryId : Nat)
    (normaliseQueryValues : List Value → Bool → List Value)
    (executionRoutine : String → List Value → Query → Except DriverError QueryResult)
    (noticesDuring : List Notice) (ctx : QueryContext) (actual : Query) (raw : QueryResult)
    (h1 : connection.terminated = none)
    (h2 : jsTrim rawSql ≠ "") (h3 : jsTrim rawSql ≠ "$1")
    (hctx : ctx = contextOf connection rawSql values inheritedQueryId freshQueryId)
    (hactual : actual = (transformQuerySteps ctx 0 clientConfiguration.interceptors
      { sql := rawSql, values := values }).2)
    (h4 : (beforeQueryExecutionSteps ctx 0 clientConfiguration.interceptors actual).2 = none)
    (hroutine : executionRoutine actual.sql
      (normaliseQueryValues actual.values connection.native) actual = .ok raw) :
    (∀ rs, raw.rows = some rs →
      (executeQuery connection clientConfiguration rawSql values inheritedQueryId freshQueryId
          normaliseQueryValues executionRoutine noticesDuring).result =
        .ok ⟨some (rs.map (fun row => applyTransformRowHooks ctx actual raw.fields
            clientConfiguration.interceptors row)), raw.fields, noticesDuring⟩) ∧
    (raw.rows = none →
      (executeQuery connection clientConfiguration rawSql values inheritedQueryId freshQueryId
          normaliseQueryValues executionRoutine noticesDuring).result =
        .ok ⟨none, raw.fields, noticesDuring⟩ ∧
      (∀ j, Event.transformRowHook j ∉ (executeQuery connection clientConfiguration rawSql
        values inheritedQueryId freshQueryId normaliseQueryValues executionRoutine
        noticesDuring).events)) ∧
    (∀ (l1 : List Interceptor) (interceptor : Interceptor) (l2 : List Interceptor)
        (f : QueryContext → Query → Row → List Field → Row) (row : Row),
      clientConfiguration.interceptors = l1 ++ interceptor :: l2 →
      interceptor.transformRow = some f →
      applyTransformRowHooks ctx actual raw.fields clientConfiguration.interceptors row =
        applyTransformRowHooks ctx actual raw.fields l2
          (f ctx actual (applyTransformRowHooks ctx actual raw.fields l1 row) raw.fields)) := by
  rw [executeQuery_reaches_execution connection clientConfiguration rawSql values
    inheritedQueryId freshQueryId normaliseQueryValues executionRoutine noticesDuring ctx
    actual h1 h2 h3 hctx hactual h4]
  refine ⟨?_, ?_, ?_⟩
  · intro rs hrows
    show (runExecution connection clientConfiguration.interceptors ctx actual
      normaliseQueryValues executionRoutine noticesDuring).result = _
    unfold runExecution
    simp only [hroutine]
    simp [hrows, transformRowSteps_snd]
  · intro hrows
    have hev : (runExecution connection clientConfiguration.interceptors ctx actual
        normaliseQueryValues executionRoutine noticesDuring).events =
        [Event.noticeListenerOn,
          Event.executionRoutineInvoked actual.sql
            (normaliseQueryValues actual.values connection.native) actual,
          Event.noticeListenerOff]
          ++ afterQueryExecutionEvents 0 clientConfiguration.interceptors
          ++ beforeQueryResultEvents 0 clientConfiguration.interceptors := by
      unfold runExecution
      simp only [hroutine]
      simp [hrows]
    constructor
    · show (runExecution connection clientConfiguration.interceptors ctx actual
        normaliseQueryValues executionRoutine noticesDuring).result = _
      unfold runExecution
      simp only [hroutine]
      simp [hrows]
    · intro j
      show Event.transformRowHook j ∉
        beforeTransformQueryEvents 0 clientConfiguration.interceptors
          ++ (transformQuerySteps ctx 0 clientConfiguration.interceptors
                { sql := rawSql, values := values }).1
          ++ (beforeQueryExecutionSteps ctx 0 clientConfiguration.interceptors actual).1
          ++ (runExecution connection clientConfiguration.interceptors ctx actual
                normaliseQueryValues executionRoutine noticesDuring).events
      rw [hev]
      intro hmem
      simp only [List.mem_append, List.mem_cons, List.not_mem_nil, or_false] at hmem
      rcases hmem with ((hA | hB) | hC) | ((hmid | hafter) | hresult)
      · exact absurd (beforeTransformQueryEvents_pre _ 0 _ hA) (by simp [isPreExecutionEvent])
      · exact absurd (transformQuerySteps_events_pre ctx _ 0 _ _ hB)
          (by simp [isPreExecutionEvent])
      · exact absurd (beforeQueryExecutionSteps_events_pre ctx _ 0 _ _ hC)
          (by simp [isPreExecutionEvent])
      · rcases hmid with hmid | hmid | hmid <;> exact Event.noConfusion hmid
      · rcases afterQueryExecutionEvents_shape _ 0 _ hafter with ⟨k, hk⟩
        exact Event.noConfusion hk
      · rcases beforeQueryResultEvents_shape _ 0 _ hresult with ⟨k, hk⟩
        exact Event.noConfusion hk
  · intro l1 interceptor l2 f row hsplit hf
    rw [hsplit, applyTransformRowHooks_append]
    simp [applyTransformRowHooks_cons, hf]

/-- C9, witness: two row-transforming hooks applied to a concrete two-row
result, and the per-row fold split at the second hook. -/
theorem c9_witness :
    (executeQuery ⟨none, false, 3⟩ rowConfig "SELECT 1" [] none 0 idNormalise okRoutine
        []).result =
      .ok ⟨some ([[1], [2]].map (fun row =>
          applyTransformRowHooks (contextOf ⟨none, false, 3⟩ "SELECT 1" [] none 0)
            ⟨"SELECT 1", []⟩ sampleRoutineResult.fields rowConfig.interceptors row)),
        sampleRoutineResult.fields, []⟩ ∧
    applyTransformRowHooks (contextOf ⟨none, false, 3⟩ "SELECT 1" [] none 0)
        ⟨"SELECT 1", []⟩ sampleRoutineResult.fields rowConfig.interceptors [5] =
      applyTransformRowHooks (contextOf ⟨none, false, 3⟩ "SELECT 1" [] none 0)
        ⟨"SELECT 1", []⟩ sampleRoutineResult.fields []
        ((fun _ _ row _ => row.map (fun v => v * 2))
          (contextOf ⟨none, false, 3⟩ "SELECT 1" [] none 0) (Query.mk "SELECT 1" [])
          (applyTransformRowHooks (contextOf ⟨none, false, 3⟩ "SELECT 1" [] none 0)
            ⟨"SELECT 1", []⟩ sampleRoutineResult.fields [incrementRowInterceptor] [5])
          sampleRoutineResult.fields) := by
  have h := c9_transform_row_composition ⟨none, false, 3⟩ rowConfig "SELECT 1" [] none 0
    idNormalise okRoutine [] (contextOf ⟨none, false, 3⟩ "SELECT 1" [] none 0)
    ⟨"SELECT 1", []⟩ sampleRoutineResult rfl (by decide) (by decide) rfl rfl rfl rfl
  exact ⟨h.1 [[1], [2]] rfl, h.2.2 [incrementRowInterceptor] doubleRowInterceptor []
    (fun _ _ row _ => row.map (fun v => v * 2)) [5] rfl rfl⟩

/-- C10: if, after an execution failure, the `queryExecutionError` hooks before
position `l1.length` run clean and the hook at that position throws, the
hook's own error propagates to the caller in place of the classified error, and
the trace ends at that hook's event: the hooks after it never fire, and the
notice listener was already removed (its removal event precedes the error-hook
events in the trace). -/
theorem c10_error_hook_throw_propagates (connection : ConnectionState)
    (clientConfiguration : ClientConfiguration) (rawSql : String) (values : List Value)
    (inheritedQueryId : Option Nat) (freshQueryId : Nat)
    (normaliseQueryValues : List Value → Bool → List Value)
    (executionRoutine : String → List Value → Query → Except DriverError QueryResult)
    (noticesDuring : List Notice) (ctx : QueryContext) (actual : Query) (e : DriverError)
    (l1 : List Interceptor) (interceptor : Interceptor) (l2 : List Interceptor)
    (f : QueryContext → Query → ExecError → Except String Unit) (m : String)
    (h1 : connection.terminated = none)
    (h2 : jsTrim rawSql ≠ "") (h3 : jsTrim rawSql ≠ "$1")
    (hctx : ctx = contextOf connection rawSql values inheritedQueryId freshQueryId)
    (hactual : actual = (transformQuerySteps ctx 0 clientConfiguration.interceptors
      { sql := rawSql, values := values }).2)
    (h4 : (beforeQueryExecutionSteps ctx 0 clientConfiguration.interceptors actual).2 = none)
    (hroutine : executionRoutine actual.sql
      (normaliseQueryValues actual.values connection.native) actual = .error e)
    (hsplit : clientConfiguration.interceptors = l1 ++ interceptor :: l2)
    (hf : interceptor.queryExecutionError = some f)
    (hthrow : f ctx actual (handleExecutionError connection e).2 = .error m)
    (hearlier : ∀ it ∈ l1, ∀ g, it.queryExecutionError = some g →
      g ctx actual (handleExecutionError connection e).2 = .ok ()) :
    (executeQuery connection clientConfiguration rawSql values inheritedQueryId freshQueryId
        normaliseQueryValues executionRoutine noticesDuring).result =
      .error (.interceptorRaisedError m) ∧
    (executeQuery connection clientConfiguration rawSql values inheritedQueryId freshQueryId
        normaliseQueryValues executionRoutine noticesDuring).events =
      beforeTransformQueryEvents 0 clientConfiguration.interceptors
        ++ (transformQuerySteps ctx 0 clientConfiguration.interceptors
              { sql := rawSql, values := values }).1
        ++ (beforeQueryExecutionSteps ctx 0 clientConfiguration.interceptors actual).1
        ++ [Event.noticeListenerOn,
            Event.executionRoutineInvoked actual.sql
              (normaliseQueryValues actual.values connection.native) actual,
            Event.noticeListenerOff]
        ++ (queryExecutionErrorHookEvents 0 l1
            ++ [Event.queryExecutionErrorHook l1.length]) := by
  have hsteps := queryExecutionErrorSteps_first_throw ctx actual
    (handleExecutionError connection e).2 l1 interceptor l2 f m hf hthrow hearlier 0
  rw [executeQuery_reaches_execution connection clientConfiguration rawSql values
    inheritedQueryId freshQueryId normaliseQueryValues executionRoutine noticesDuring ctx
    actual h1 h2 h3 hctx hactual h4]
  constructor
  · show (runExecution connection clientConfiguration.interceptors ctx actual
      normaliseQueryValues executionRoutine noticesDuring).result = _
    unfold runExecution
    simp only [hroutine, hsplit, hsteps]
  · show beforeTransformQueryEvents 0 clientConfiguration.interceptors
        ++ (transformQuerySteps ctx 0 clientConfiguration.interceptors
              { sql := rawSql, values := values }).1
        ++ (beforeQueryExecutionSteps ctx 0 clientConfiguration.interceptors actual).1
        ++ (runExecution connection clientConfiguration.interceptors ctx actual
              normaliseQueryValues executionRoutine noticesDuring).events = _
    unfold runExecution
    simp only [hroutine, hsplit, hsteps]
    simp [List.append_assoc]

/-- C10, witness: a benign error hook, then a throwing one, then another benign
one that never runs; the hook's own error replaces the classified error. -/
theorem c10_witness :
    (executeQuery ⟨none, false, 3⟩ throwConfig "SELECT 1" [] none 0 idNormalise
        (fun _ _ _ => .error uniqueViolationCause) []).result =
      .error (.interceptorRaisedError "hook exploded") ∧
    (executeQuery ⟨none, false, 3⟩ throwConfig "SELECT 1" [] none 0 idNormalise
        (fun _ _ _ => .error uniqueViolationCause) []).events =
      beforeTransformQueryEvents 0 throwConfig.interceptors
        ++ (transformQuerySteps (contextOf ⟨none, false, 3⟩ "SELECT 1" [] none 0) 0
              throwConfig.interceptors { sql := "SELECT 1", values := [] }).1
        ++ (beforeQueryExecutionSteps (contextOf ⟨none, false, 3⟩ "SELECT 1" [] none 0) 0
              throwConfig.interceptors ⟨"SELECT 1", []⟩).1
        ++ [Event.noticeListenerOn,
            Event.executionRoutineInvoked "SELECT 1" [] ⟨"SELECT 1", []⟩,
            Event.noticeListenerOff]
        ++ (queryExecutionErrorHookEvents 0 [sampleInterceptor]
            ++ [Event.queryExecutionErrorHook [sampleInterceptor].length]) := by
  have h := c10_error_hook_throw_propagates ⟨none, false, 3⟩ throwConfig "SELECT 1" [] none 0
    idNormalise (fun _ _ _ => .error uniqueViolationCause) []
    (contextOf ⟨none, false, 3⟩ "SELECT 1" [] none 0) ⟨"SELECT 1", []⟩ uniqueViolationCause
    [sampleInterceptor] throwingInterceptor [sampleInterceptor]
    (fun _ _ _ => .error "hook exploded") "hook exploded"
    rfl (by decide) (by decide) rfl rfl rfl rfl rfl rfl rfl
    (by
      intro it hm g hg
      have hi : it = sampleInterceptor := by simpa using hm
      subst hi
      have hg' : some (fun _ _ _ => (Except.ok () : Except String Unit)) = some g := hg
      rw [← Option.some.inj hg'])
  exact h

end Slonik

